import Mathlib

/-
Verification of the control/predicate core of the rust-type-freak library
(src/control.rs): type-level conditional operators over compile-time
booleans and numerals.

Shallow embedding: Rust types manipulated by the module are values of the
inductive `Ty`; trait resolution for an operator is a function returning
`Option Ty` — `some O` means the compiler derives a unique implementation
whose associated `Output` type is `O`, and `none` means no implementation
is derivable (a compile failure).
-/

namespace TypeFreak

/-- The universe of Rust types the control module manipulates: the typenum
boolean marker types `True` / `False` (`boolMarker`), typenum unsigned
numeral types (`num`), two-element tuple types (`pair`), and a few opaque
carrier types (`unit`, `usize`, `u8`) standing for arbitrary caller-chosen
Output types. -/
inductive Ty where
  | unit : Ty
  | usize : Ty
  | u8 : Ty
  | boolMarker : Bool → Ty
  | num : Nat → Ty
  | pair : Ty → Ty → Ty
  deriving DecidableEq, Repr

/-- The typenum `True` marker type. -/
def TrueTy : Ty := Ty.boolMarker true

/-- The typenum `False` marker type. -/
def FalseTy : Ty := Ty.boolMarker false

/-- Resolution succeeded: some implementation is derivable. -/
def Resolves (r : Option Ty) : Prop := r.isSome = true

instance (r : Option Ty) : Decidable (Resolves r) := by
  unfold Resolves; infer_instance

namespace Tn

/-- Modelled from the spec: the external typenum numeral-ordering capability
(spec section 6; the typenum crate is not part of this repository). `Le a b`
is the associated relation result type `Le<Lhs, Rhs>` of `Lhs: IsLess<Rhs>`,
a Boolean marker answering whether a < b. Numeral identity is canonical:
two numerals are equal iff they denote the same natural number. -/
def Le (a b : Nat) : Ty := Ty.boolMarker (decide (a < b))

/-- Modelled from the spec: relation result of `Lhs: IsLessOrEqual<Rhs>`. -/
def LeEq (a b : Nat) : Ty := Ty.boolMarker (decide (a ≤ b))

/-- Modelled from the spec: relation result of `Lhs: IsGreater<Rhs>`. -/
def Gr (a b : Nat) : Ty := Ty.boolMarker (decide (a > b))

/-- Modelled from the spec: relation result of `Lhs: IsGreaterOrEqual<Rhs>`. -/
def GrEq (a b : Nat) : Ty := Ty.boolMarker (decide (a ≥ b))

/-- Modelled from the spec: relation result of `Lhs: IsEqual<Rhs>` (typenum
calls this alias `Eq`; renamed here to avoid clashing with Lean equality). -/
def EqOut (a b : Nat) : Ty := Ty.boolMarker (decide (a = b))

end Tn

/-- Modelled from the spec: `crate::tuple::FirstOfOutput` (the tuple module
is not under src/). Spec section 4.1: extract the first element of a
two-element heterogeneous container; every nameable `Ty` is a well-formed,
constructible type, so construction of the pair always succeeds. -/
def FirstOfOutput (t : Ty) : Option Ty :=
  match t with
  | Ty.pair a _ => some a
  | _ => none

/-- Embeds control.rs line 73: `IfOutput<Output, Cond> =
FirstOfOutput<(Output, Cond)>`. -/
def IfOutput (Output Cond : Ty) : Option Ty :=
  FirstOfOutput (Ty.pair Output Cond)

/-- Embeds control.rs lines 78-86: the single impl
`impl<Same, Output> IfSame<Same, Same> for Output` unifies with a query
`<Output as IfSame<Lhs, Rhs>>` exactly when Lhs and Rhs are the same type,
and then sets `Output = Output` (the self type). -/
def IfSameResolve (Output Lhs Rhs : Ty) : Option Ty :=
  if Lhs = Rhs then some Output else none

/-- Embeds control.rs line 82: the `IfSameOutput` alias. -/
def IfSameOutput (Output Lhs Rhs : Ty) : Option Ty :=
  IfSameResolve Output Lhs Rhs

/-- Embeds control.rs lines 91-102: `IfPredicate` has the single impl
`impl<Output> IfPredicate<True> for Output`, so resolution succeeds exactly
when Cond is the True marker, yielding the self type. -/
def IfPredicateResolve (Output Cond : Ty) : Option Ty :=
  if Cond = TrueTy then some Output else none

/-- Embeds control.rs line 98: the `IfPredicateOutput` alias. -/
def IfPredicateOutput (Output Cond : Ty) : Option Ty :=
  IfPredicateResolve Output Cond

/-- Embeds control.rs lines 107-123: `IfElsePredicate` is implemented for
the pair self type `(TrueOutput, FalseOutput)` twice, once for Cond = True
(yielding TrueOutput) and once for Cond = False (yielding FalseOutput). -/
def IfElsePredicateResolve (SelfTy Cond : Ty) : Option Ty :=
  match SelfTy, Cond with
  | Ty.pair t _, Ty.boolMarker true => some t
  | Ty.pair _ f, Ty.boolMarker false => some f
  | _, _ => none

/-- Embeds control.rs lines 114-115: the `IfElsePredicateOutput` alias,
`<(TrueOutput, FalseOutput) as IfElsePredicate<Cond>>::Output`. -/
def IfElsePredicateOutput (TrueOutput FalseOutput Cond : Ty) : Option Ty :=
  IfElsePredicateResolve (Ty.pair TrueOutput FalseOutput) Cond

/-- Embeds control.rs lines 128-139 (trait side): `IfNotPredicate` has the
single impl `impl<Output> IfNotPredicate<False> for Output`. -/
def IfNotPredicateResolve (Output Cond : Ty) : Option Ty :=
  if Cond = FalseTy then some Output else none

/-- Embeds control.rs line 135 exactly as written:
`pub type IfNotPredicateOutput<Output, Cond> = <Output as IfPredicate<Cond>>::Output;`
— the alias delegates to `IfPredicate`, not to `IfNotPredicate`. -/
def IfNotPredicateOutput (Output Cond : Ty) : Option Ty :=
  IfPredicateResolve Output Cond

/-- Embeds control.rs lines 150-157: `impl IfLess<Lhs, Rhs> for Output`
requires `Lhs: IsLess<Rhs>` (typenum implements the ordering relations for
numeral types only), `Le<Lhs, Rhs>: Boolean` (always satisfied, the relation
result is a Boolean marker), and `Output: IfPredicate<Le<Lhs, Rhs>>`,
setting `Output = IfPredicateOutput<Output, Le<Lhs, Rhs>>`. -/
def IfLessResolve (Output Lhs Rhs : Ty) : Option Ty :=
  match Lhs, Rhs with
  | Ty.num a, Ty.num b => IfPredicateResolve Output (Tn.Le a b)
  | _, _ => none

/-- Embeds control.rs line 148: the `IfLessOutput` alias. -/
def IfLessOutput (Output Lhs Rhs : Ty) : Option Ty :=
  IfLessResolve Output Lhs Rhs

/-- Embeds control.rs lines 168-175: same shape as `IfLess`, over
`IsLessOrEqual` / `LeEq`. -/
def IfLessOrEqualResolve (Output Lhs Rhs : Ty) : Option Ty :=
  match Lhs, Rhs with
  | Ty.num a, Ty.num b => IfPredicateResolve Output (Tn.LeEq a b)
  | _, _ => none

/-- Embeds control.rs line 166: the `IfLessOrEqualOutput` alias. -/
def IfLessOrEqualOutput (Output Lhs Rhs : Ty) : Option Ty :=
  IfLessOrEqualResolve Output Lhs Rhs

/-- Embeds control.rs lines 186-193: same shape, over `IsGreater` / `Gr`. -/
def IfGreaterResolve (Output Lhs Rhs : Ty) : Option Ty :=
  match Lhs, Rhs with
  | Ty.num a, Ty.num b => IfPredicateResolve Output (Tn.Gr a b)
  | _, _ => none

/-- Embeds control.rs line 184: the `IfGreaterOutput` alias. -/
def IfGreaterOutput (Output Lhs Rhs : Ty) : Option Ty :=
  IfGreaterResolve Output Lhs Rhs

/-- Embeds control.rs lines 204-211: same shape, over `IsGreaterOrEqual` /
`GrEq`. -/
def IfGreaterOrEqualResolve (Output Lhs Rhs : Ty) : Option Ty :=
  match Lhs, Rhs with
  | Ty.num a, Ty.num b => IfPredicateResolve Output (Tn.GrEq a b)
  | _, _ => none

/-- Embeds control.rs line 202: the `IfGreaterOrEqualOutput` alias. -/
def IfGreaterOrEqualOutput (Output Lhs Rhs : Ty) : Option Ty :=
  IfGreaterOrEqualResolve Output Lhs Rhs

/-- Embeds control.rs lines 222-229: same shape, over `IsEqual` / `Eq`. -/
def IfEqualResolve (Output Lhs Rhs : Ty) : Option Ty :=
  match Lhs, Rhs with
  | Ty.num a, Ty.num b => IfPredicateResolve Output (Tn.EqOut a b)
  | _, _ => none

/-- Embeds control.rs line 220: the `IfEqualOutput` alias. -/
def IfEqualOutput (Output Lhs Rhs : Ty) : Option Ty :=
  IfEqualResolve Output Lhs Rhs

end TypeFreak

namespace TypeFreak

/-- Helper: the less-than assertion resolves exactly when a < b. -/
theorem ifLess_resolves_iff (Output : Ty) (a b : Nat) :
    Resolves (IfLessOutput Output (Ty.num a) (Ty.num b)) ↔ a < b := by
  by_cases h : a < b <;>
    simp [Resolves, IfLessOutput, IfLessResolve, IfPredicateResolve, Tn.Le, TrueTy, h]

/-- Helper: the equality assertion resolves exactly when a = b. -/
theorem ifEqual_resolves_iff (Output : Ty) (a b : Nat) :
    Resolves (IfEqualOutput Output (Ty.num a) (Ty.num b)) ↔ a = b := by
  by_cases h : a = b <;>
    simp [Resolves, IfEqualOutput, IfEqualResolve, IfPredicateResolve, Tn.EqOut, TrueTy, h]

/-- Helper: the greater-than assertion resolves exactly when a > b. -/
theorem ifGreater_resolves_iff (Output : Ty) (a b : Nat) :
    Resolves (IfGreaterOutput Output (Ty.num a) (Ty.num b)) ↔ b < a := by
  by_cases h : b < a <;>
    simp [Resolves, IfGreaterOutput, IfGreaterResolve, IfPredicateResolve, Tn.Gr, TrueTy, h]

/-- Claim C1: for all numerals a, b and every Output carrier, each of the
five ordering assertions resolves exactly when the corresponding arithmetic
relation holds, and on success it resolves to Output. -/
theorem ordering_assertions_iff (a b : Nat) (Output : Ty) :
    IfLessOutput Output (Ty.num a) (Ty.num b)
      = (if a < b then some Output else none) ∧
    IfLessOrEqualOutput Output (Ty.num a) (Ty.num b)
      = (if a ≤ b then some Output else none) ∧
    IfGreaterOutput Output (Ty.num a) (Ty.num b)
      = (if a > b then some Output else none) ∧
    IfGreaterOrEqualOutput Output (Ty.num a) (Ty.num b)
      = (if a ≥ b then some Output else none) ∧
    IfEqualOutput Output (Ty.num a) (Ty.num b)
      = (if a = b then some Output else none) := by
  refine ⟨?_, ?_, ?_, ?_, ?_⟩
  · by_cases h : a < b <;>
      simp [IfLessOutput, IfLessResolve, IfPredicateResolve, Tn.Le, TrueTy, h]
  · by_cases h : a ≤ b <;>
      simp [IfLessOrEqualOutput, IfLessOrEqualResolve, IfPredicateResolve, Tn.LeEq, TrueTy, h]
  · by_cases h : a > b <;>
      simp [IfGreaterOutput, IfGreaterResolve, IfPredicateResolve, Tn.Gr, TrueTy, h]
  · by_cases h : a ≥ b <;>
      simp [IfGreaterOrEqualOutput, IfGreaterOrEqualResolve, IfPredicateResolve, Tn.GrEq, TrueTy, h]
  · by_cases h : a = b <;>
      simp [IfEqualOutput, IfEqualResolve, IfPredicateResolve, Tn.EqOut, TrueTy, h]

/-- Claim C2 (code bug): control.rs line 135 defines the alias
IfNotPredicateOutput through IfPredicate instead of IfNotPredicate, so the
alias resolves for Cond = True and fails for Cond = False — the opposite of
the claim and of the trait's own doc and sole impl (lines 127, 137-139),
which this theorem also evaluates. -/
theorem ifNotPredicateOutput_alias_bug :
    IfNotPredicateOutput Ty.unit FalseTy = none ∧
    IfNotPredicateOutput Ty.unit TrueTy = some Ty.unit ∧
    IfNotPredicateResolve Ty.unit FalseTy = some Ty.unit ∧
    IfNotPredicateResolve Ty.unit TrueTy = none := by
  decide

/-- Claim C3: IfPredicate resolves to Output exactly when the Boolean
condition is the True marker; for the False marker no implementation is
derivable, so resolution fails. -/
theorem ifPredicate_iff_true (Output : Ty) (c : Bool) :
    (IfPredicateResolve Output (Ty.boolMarker c) = some Output ↔ c = true) ∧
    IfPredicateResolve Output FalseTy = none := by
  cases c <;> simp [IfPredicateResolve, TrueTy, FalseTy]

/-- Claim C4: IfSame resolves exactly when both type arguments are the same
type: for every T it resolves to Output at (T, T), and for distinct types it
has no derivation. -/
theorem ifSame_iff_same (Output Lhs Rhs T : Ty) :
    IfSameOutput Output T T = some Output ∧
    (Lhs ≠ Rhs → IfSameOutput Output Lhs Rhs = none) := by
  constructor
  · simp [IfSameOutput, IfSameResolve]
  · intro h
    simp [IfSameOutput, IfSameResolve, h]

/-- Witness for C4 at concrete types: usize = usize resolves, usize ≠ u8
does not. -/
theorem ifSame_iff_same_witness :
    IfSameOutput Ty.unit Ty.usize Ty.usize = some Ty.unit ∧
    IfSameOutput Ty.unit Ty.usize Ty.u8 = none :=
  ⟨(ifSame_iff_same Ty.unit Ty.usize Ty.u8 Ty.usize).1,
   (ifSame_iff_same Ty.unit Ty.usize Ty.u8 Ty.usize).2 (by decide)⟩

/-- Claim C5: IfElsePredicate always resolves for a well-typed Boolean
condition, to TrueOutput when the condition is True and to FalseOutput when
it is False. -/
theorem ifElsePredicate_total (t f : Ty) (c : Bool) :
    IfElsePredicateOutput t f (Ty.boolMarker c) = some (if c then t else f) := by
  cases c <;> rfl

/-- Claim C6 (trichotomy): for every pair of numerals exactly one of the
less-than, equal and greater-than assertions resolves. -/
theorem ordering_trichotomy (a b : Nat) (Output : Ty) :
    (Resolves (IfLessOutput Output (Ty.num a) (Ty.num b)) ∧
     ¬ Resolves (IfEqualOutput Output (Ty.num a) (Ty.num b)) ∧
     ¬ Resolves (IfGreaterOutput Output (Ty.num a) (Ty.num b))) ∨
    (¬ Resolves (IfLessOutput Output (Ty.num a) (Ty.num b)) ∧
     Resolves (IfEqualOutput Output (Ty.num a) (Ty.num b)) ∧
     ¬ Resolves (IfGreaterOutput Output (Ty.num a) (Ty.num b))) ∨
    (¬ Resolves (IfLessOutput Output (Ty.num a) (Ty.num b)) ∧
     ¬ Resolves (IfEqualOutput Output (Ty.num a) (Ty.num b)) ∧
     Resolves (IfGreaterOutput Output (Ty.num a) (Ty.num b))) := by
  simp only [ifLess_resolves_iff, ifEqual_resolves_iff, ifGreater_resolves_iff]
  omega

/-- Claim C7 (transitivity): if IfLess resolves for (a, b) and for (b, c),
it resolves for (a, c). -/
theorem ifLess_trans (a b c : Nat) (Output : Ty)
    (hab : Resolves (IfLessOutput Output (Ty.num a) (Ty.num b)))
    (hbc : Resolves (IfLessOutput Output (Ty.num b) (Ty.num c))) :
    Resolves (IfLessOutput Output (Ty.num a) (Ty.num c)) := by
  simp only [ifLess_resolves_iff] at hab hbc ⊢
  omega

/-- Witness for C7 at 0 < 1 < 2. -/
theorem ifLess_trans_witness :
    Resolves (IfLessOutput Ty.unit (Ty.num 0) (Ty.num 2)) :=
  ifLess_trans 0 1 2 Ty.unit (by decide) (by decide)

/-- Claim C8 (decomposition equivalence): whenever an ordering assertion
resolves, its output equals the result of routing the numeral-ordering
capability's Boolean answer through the predicate primitive,
IfPredicateOutput. -/
theorem ordering_decomposition (a b : Nat) (Output : Ty) :
    (Resolves (IfLessOutput Output (Ty.num a) (Ty.num b)) →
       IfLessOutput Output (Ty.num a) (Ty.num b)
         = IfPredicateOutput Output (Tn.Le a b)) ∧
    (Resolves (IfLessOrEqualOutput Output (Ty.num a) (Ty.num b)) →
       IfLessOrEqualOutput Output (Ty.num a) (Ty.num b)
         = IfPredicateOutput Output (Tn.LeEq a b)) ∧
    (Resolves (IfGreaterOutput Output (Ty.num a) (Ty.num b)) →
       IfGreaterOutput Output (Ty.num a) (Ty.num b)
         = IfPredicateOutput Output (Tn.Gr a b)) ∧
    (Resolves (IfGreaterOrEqualOutput Output (Ty.num a) (Ty.num b)) →
       IfGreaterOrEqualOutput Output (Ty.num a) (Ty.num b)
         = IfPredicateOutput Output (Tn.GrEq a b)) ∧
    (Resolves (IfEqualOutput Output (Ty.num a) (Ty.num b)) →
       IfEqualOutput Output (Ty.num a) (Ty.num b)
         = IfPredicateOutput Output (Tn.EqOut a b)) :=
  ⟨fun _ => rfl, fun _ => rfl, fun _ => rfl, fun _ => rfl, fun _ => rfl⟩

/-- Witness for C8 at the concrete pairs the repository's own tests use. -/
theorem ordering_decomposition_witness :
    IfLessOutput Ty.unit (Ty.num 3) (Ty.num 5)
      = IfPredicateOutput Ty.unit (Tn.Le 3 5) ∧
    IfLessOrEqualOutput Ty.unit (Ty.num 6) (Ty.num 6)
      = IfPredicateOutput Ty.unit (Tn.LeEq 6 6) ∧
    IfGreaterOutput Ty.unit (Ty.num 7) (Ty.num 4)
      = IfPredicateOutput Ty.unit (Tn.Gr 7 4) ∧
    IfGreaterOrEqualOutput Ty.unit (Ty.num 7) (Ty.num 7)
      = IfPredicateOutput Ty.unit (Tn.GrEq 7 7) ∧
    IfEqualOutput Ty.unit (Ty.num 9) (Ty.num 9)
      = IfPredicateOutput Ty.unit (Tn.EqOut 9 9) :=
  ⟨(ordering_decomposition 3 5 Ty.unit).1 (by decide),
   (ordering_decomposition 6 6 Ty.unit).2.1 (by decide),
   (ordering_decomposition 7 4 Ty.unit).2.2.1 (by decide),
   (ordering_decomposition 7 7 Ty.unit).2.2.2.1 (by decide),
   (ordering_decomposition 9 9 Ty.unit).2.2.2.2 (by decide)⟩

/-- Claim C9: IfOutput resolves to Output unchanged for every constructible
condition type; acceptance never depends on any value or relation between
Output and Cond. -/
theorem ifOutput_id (Output Cond : Ty) : IfOutput Output Cond = some Output :=
  rfl

/-- Claim C10: with both branches the same type T, IfElsePredicateOutput
still resolves, to T, for both Boolean inhabitants of the condition. -/
theorem ifElsePredicate_same_branches (T : Ty) (c : Bool) :
    IfElsePredicateOutput T T (Ty.boolMarker c) = some T := by
  cases c <;> rfl

end TypeFreak
